import Mathlib

set_option maxRecDepth 100000

deriving instance DecidableEq for Except

/-!
Verification of the expression-compiler pipeline in `server.js`:
tokenizer, recursive-descent parser, tree printer, semantic analysis,
three-address-code (TAC) generation, pseudo-assembly emission, and the
`/compile` endpoint glue.  Each definition is a shallow embedding of the
correspondingly named JavaScript function; strings are modelled by Lean
`String`, JavaScript exceptions by `Except String`.
-/

namespace ExprCompiler

/-- A lexer token: `{ type, value }` as produced by `tokenize`.
`type` is one of `"NUMBER"`, `"IDENT"`, `"OPERATOR"`. -/
structure Token where
  type : String
  value : String
deriving DecidableEq, Repr

/-- The single-quote character, used in error messages. -/
def q : String := String.singleton (Char.ofNat 39)

/-- JavaScript `\s` for the characters this service meets: blank classes. -/
def isSpaceChar (c : Char) : Bool := c.isWhitespace

/-- Character class `[\d.]` used while scanning a number. -/
def isNumChar (c : Char) : Bool := c.isDigit || c = '.'

/-- Character class `[a-zA-Z0-9]` used while scanning an identifier. -/
def isIdentChar (c : Char) : Bool := c.isAlpha || c.isDigit

/-- The operator characters `+-*/()`. -/
def isOpChar (c : Char) : Bool :=
  c = '+' || c = '-' || c = '*' || c = '/' || c = '(' || c = ')'

/-- Count of dots in a scanned number, `num.match(/\./g).length`. -/
def countDots (cs : List Char) : Nat := cs.countP (fun c => c = '.')

/-- One step of `tokenize`'s `while` loop over the remaining characters,
carrying the absolute 0-based cursor `i` for error positions.  Whitespace is
skipped; a number starts on a digit or on a dot followed by a digit and
greedily takes `[\d.]` (more than one dot is a lexical error); an identifier
starts on a letter and greedily takes alphanumerics; `+-*/()` are single
character operator tokens; anything else reports the character and its
1-based position.
The scan of a number or identifier consumes the current character (which the
entry guard shows matches the scanned class) and then greedily takes the rest,
exactly as the source's inner `while` over `[\d.]` resp. `[a-zA-Z0-9]`.
Recursion is bounded by `fuel`; every iteration consumes at least one
character, so the fuel `tokenize` supplies (input length + 1) never runs
out. -/
def tokenizeAux : Nat → List Char → Nat → Except String (List Token)
  | 0, _, _ => .error "out of fuel"
  | _ + 1, [], _ => .ok []
  | fuel + 1, c :: rest, i =>
    if isSpaceChar c then
      tokenizeAux fuel rest (i + 1)
    else if c.isDigit || (c = '.' && (rest.headD ' ').isDigit) then
      let numChars := c :: rest.takeWhile isNumChar
      if countDots numChars > 1 then
        .error "Invalid number format: multiple dots"
      else
        match tokenizeAux fuel (rest.drop (rest.takeWhile isNumChar).length)
            (i + numChars.length) with
        | .error e => .error e
        | .ok ts => .ok (⟨"NUMBER", String.mk numChars⟩ :: ts)
    else if c.isAlpha then
      let idChars := c :: rest.takeWhile isIdentChar
      match tokenizeAux fuel (rest.drop (rest.takeWhile isIdentChar).length)
          (i + idChars.length) with
      | .error e => .error e
      | .ok ts => .ok (⟨"IDENT", String.mk idChars⟩ :: ts)
    else if isOpChar c then
      match tokenizeAux fuel rest (i + 1) with
      | .error e => .error e
      | .ok ts => .ok (⟨"OPERATOR", String.singleton c⟩ :: ts)
    else
      .error ("Invalid character: " ++ q ++ String.singleton c ++ q ++
        " at position " ++ toString (i + 1))

/-- `tokenize(input)`: left-to-right scan of the whole input string. -/
def tokenize (input : String) : Except String (List Token) :=
  tokenizeAux (input.length + 1) input.data 0

/-- Abstract syntax tree node, the tagged variant built by the parser:
`Number {value}`, `Variable {name}`, `BinaryOp {operator, left, right}`,
`UnaryOp {operator, operand}` (the parser only ever builds `operator = "-"`
for `UnaryOp`). -/
inductive AST where
  | Number (value : String)
  | Variable (name : String)
  | BinaryOp (operator : String) (left right : AST)
  | UnaryOp (operator : String) (operand : AST)
deriving DecidableEq, Repr

/-- `Parser.eat(type, value)`: demand the next token match, giving a
`SyntaxError` otherwise (the `value` guard only applies when `value` is a
non-empty string, mirroring JavaScript truthiness of the `value` argument). -/
def eat (ty val : String) (ts : List Token) : Except String (Token × List Token) :=
  match ts with
  | [] =>
    .error ("Expected " ++ ty ++ " " ++
      (if val ≠ "" then q ++ val ++ q else "") ++ " but got EOF")
  | tok :: rest =>
    if tok.type ≠ ty || (val ≠ "" && tok.value ≠ val) then
      .error ("Expected " ++ ty ++ " " ++
        (if val ≠ "" then q ++ val ++ q else "") ++ " but got " ++ tok.type)
    else
      .ok (tok, rest)

mutual

/-- `parseExpression`: parse a term, then fold `('+'|'-') term` pairs
left-associatively via `parseExpressionLoop`.  `fuel` bounds recursion depth
(the JavaScript recursion terminates because every call consumes tokens;
`parseFuel` below always provides enough). -/
def parseExpression : Nat → List Token → Except String (AST × List Token)
  | 0, _ => .error "out of fuel"
  | fuel + 1, ts =>
    match parseTerm fuel ts with
    | .error e => .error e
    | .ok (node, ts1) => parseExpressionLoop fuel node ts1

/-- The `while` loop of `parseExpression`: while the next token's value is
`+` or `-`, consume it, parse the next term, and wrap the accumulated node
as the left child of a new `BinaryOp`. -/
def parseExpressionLoop : Nat → AST → List Token → Except String (AST × List Token)
  | 0, _, _ => .error "out of fuel"
  | _ + 1, node, [] => .ok (node, [])
  | fuel + 1, node, t :: rest =>
    if t.value = "+" || t.value = "-" then
      match parseTerm fuel rest with
      | .error e => .error e
      | .ok (right, ts2) => parseExpressionLoop fuel (.BinaryOp t.value node right) ts2
    else
      .ok (node, t :: rest)

/-- `parseTerm`: parse a factor, then fold `('*'|'/') factor` pairs
left-associatively via `parseTermLoop`. -/
def parseTerm : Nat → List Token → Except String (AST × List Token)
  | 0, _ => .error "out of fuel"
  | fuel + 1, ts =>
    match parseFactor fuel ts with
    | .error e => .error e
    | .ok (node, ts1) => parseTermLoop fuel node ts1

/-- The `while` loop of `parseTerm`. -/
def parseTermLoop : Nat → AST → List Token → Except String (AST × List Token)
  | 0, _, _ => .error "out of fuel"
  | _ + 1, node, [] => .ok (node, [])
  | fuel + 1, node, t :: rest =>
    if t.value = "*" || t.value = "/" then
      match parseFactor fuel rest with
      | .error e => .error e
      | .ok (right, ts2) => parseTermLoop fuel (.BinaryOp t.value node right) ts2
    else
      .ok (node, t :: rest)

/-- `parseFactor`: number or identifier leaf, parenthesised expression
(demanding the closing `)`), or unary minus recursing on `parseFactor`. -/
def parseFactor : Nat → List Token → Except String (AST × List Token)
  | 0, _ => .error "out of fuel"
  | fuel + 1, ts =>
    match ts with
    | [] => .error "Unexpected end of input"
    | tok :: rest =>
      if tok.type = "NUMBER" then
        .ok (.Number tok.value, rest)
      else if tok.type = "IDENT" then
        .ok (.Variable tok.value, rest)
      else if tok.value = "(" then
        match parseExpression fuel rest with
        | .error e => .error e
        | .ok (node, ts1) =>
          match eat "OPERATOR" ")" ts1 with
          | .error e => .error e
          | .ok (_, ts2) => .ok (node, ts2)
      else if tok.value = "-" then
        match parseFactor fuel rest with
        | .error e => .error e
        | .ok (expr, ts1) => .ok (.UnaryOp "-" expr, ts1)
      else
        .error ("Unexpected token: " ++ tok.type ++ " " ++ q ++ tok.value ++ q)

end

/-- Fuel sufficient for any token list: each parser call either consumes a
token before recursing or moves one grammar level down (at most three
levels per token). -/
def parseFuel (ts : List Token) : Nat := 3 * ts.length + 10

/-- `printTree(node, prefix, isLeft, isRoot)`: pretty-print the AST with
box-drawing connectors.  (The source's `if (!node) return ""` guard is
unreachable here since `AST` values are never null.) -/
def printTree (node : AST) (pre : String) (isLeft isRoot : Bool) : String :=
  let connector := if isRoot then "" else if isLeft then "├── " else "└── "
  let childPrefix := if isRoot then "" else if isLeft then "│   " else "    "
  match node with
  | .BinaryOp op l r =>
    pre ++ connector ++ "[" ++ op ++ "]\n" ++
      printTree l (pre ++ childPrefix) true false ++
      printTree r (pre ++ childPrefix) false false
  | .UnaryOp op operand =>
    pre ++ connector ++ "[unary " ++ op ++ "]\n" ++
      printTree operand (pre ++ childPrefix) false false
  | .Number v => pre ++ connector ++ v ++ "\n"
  | .Variable n => pre ++ connector ++ n ++ "\n"

/-- The accumulators of `semanticAnalysis`'s `walk`: the insertion-ordered
set of distinct variable names, the ordered constant and operator lists,
and the node count. -/
structure SemInfo where
  vars : List String  -- `variables` in the source; renamed (reserved word in Lean)
  constants : List String
  operators : List String
  nodeCount : Nat
deriving DecidableEq, Repr

/-- Insertion into a JavaScript `Set`: appended only if not yet present,
so iteration order is first-seen order. -/
def setAdd (s : List String) (x : String) : List String :=
  if x ∈ s then s else s ++ [x]

/-- `semanticAnalysis`'s `walk`: pre-order traversal bumping the node count
at every node; variables go into the set, constants and operators into
their ordered lists (a binary operator before its children's operators,
left child before right child; `unary -` for a unary node). -/
def semWalk : AST → SemInfo → SemInfo
  | .Variable n, s =>
    { s with nodeCount := s.nodeCount + 1, vars := setAdd s.vars n }
  | .Number v, s =>
    { s with nodeCount := s.nodeCount + 1, constants := s.constants ++ [v] }
  | .BinaryOp op l r, s =>
    semWalk r (semWalk l
      { s with nodeCount := s.nodeCount + 1, operators := s.operators ++ [op] })
  | .UnaryOp op operand, s =>
    semWalk operand
      { s with nodeCount := s.nodeCount + 1,
               operators := s.operators ++ ["unary " ++ op] }

/-- The accumulators after walking the whole AST from the empty state. -/
def semanticInfo (ast : AST) : SemInfo :=
  semWalk ast ⟨[], [], [], 0⟩

/-- The `Result Type` classification: symbolic iff any variable occurs. -/
def resultTypeStr (info : SemInfo) : String :=
  if info.vars.length > 0 then "symbolic (contains variables)"
  else "numeric (can evaluate)"

/-- `semanticAnalysis(ast)`: the full report string assembled from the
walk's accumulators. -/
def semanticAnalysis (ast : AST) : String :=
  let info := semanticInfo ast
  "── Semantic Analysis Report ──\n\n" ++
  "AST Nodes     : " ++ toString info.nodeCount ++ "\n" ++
  "Variables     : " ++
    (if info.vars.length > 0 then String.intercalate ", " info.vars
     else "(none)") ++ "\n" ++
  "Constants     : " ++
    (if info.constants.length > 0 then String.intercalate ", " info.constants
     else "(none)") ++ "\n" ++
  "Operators     : " ++ String.intercalate ", " info.operators ++ "\n" ++
  "Result Type   : " ++ resultTypeStr info ++ "\n" ++
  (if info.vars.length > 0 then
    "\n⚠ Undeclared symbols: " ++ String.intercalate ", " info.vars ++
    "\n  (values needed at runtime)"
   else
    "\n✓ Expression is fully evaluable at compile time")

/-- `generateTAC`'s inner `gen`, with the call-local `tempCounter` and the
emitted instruction list threaded explicitly: returns the operand reference
for the node, the instructions it appended (in order), and the counter after
it.  Leaves emit nothing and return their text; a unary minus generates its
operand then emits `tN = -r`; a binary node generates left, then right, then
emits `tN = l op r`.  A unary node whose operator is not `-` falls through
to the `Unknown node type` error (unreachable for parser-built trees). -/
def gen : AST → Nat → Except String (String × List String × Nat)
  | .Number v, ctr => .ok (v, [], ctr)
  | .Variable n, ctr => .ok (n, [], ctr)
  | .UnaryOp op operand, ctr =>
    if op = "-" then
      match gen operand ctr with
      | .error e => .error e
      | .ok (r, code, ctr1) =>
        let temp := "t" ++ toString ctr1
        .ok (temp, code ++ [temp ++ " = -" ++ r], ctr1 + 1)
    else
      .error "Unknown node type in TAC generation"
  | .BinaryOp op l r, ctr =>
    match gen l ctr with
    | .error e => .error e
    | .ok (lr, lcode, ctr1) =>
      match gen r ctr1 with
      | .error e => .error e
      | .ok (rr, rcode, ctr2) =>
        let temp := "t" ++ toString ctr2
        .ok (temp, lcode ++ rcode ++ [temp ++ " = " ++ lr ++ " " ++ op ++ " " ++ rr],
          ctr2 + 1)

/-- `generateTAC(node)`: run `gen` with the counter starting at 0, then
always append the final `result = <rootRef>` line (the source's `if`/`else`
both push it). -/
def generateTAC (node : AST) : Except String (List String) :=
  match gen node 0 with
  | .error e => .error e
  | .ok (r, tac, _) => .ok (tac ++ ["result = " ++ r])

/-- Whether `pat` is an initial segment of `cs`. -/
def startsWith : List Char → List Char → Bool
  | [], _ => true
  | _ :: _, [] => false
  | p :: ps, c :: cs => p = c && startsWith ps cs

/-- JavaScript `String.prototype.split(sep)` for a non-empty separator:
split on every non-overlapping occurrence, left to right; the segment being
collected is carried reversed.  Fuel (length + 1 at the call site) bounds
the recursion and never runs out. -/
def jsSplitAux (sep : List Char) : Nat → List Char → List Char → List (List Char)
  | 0, _, acc => [acc.reverse]
  | _ + 1, [], acc => [acc.reverse]
  | fuel + 1, c :: rest, acc =>
    if startsWith sep (c :: rest) then
      acc.reverse :: jsSplitAux sep fuel ((c :: rest).drop sep.length) []
    else
      jsSplitAux sep fuel rest (c :: acc)

/-- JavaScript `s.split(sep)`. -/
def jsSplit (sep s : String) : List String :=
  (jsSplitAux sep.data (s.length + 1) s.data []).map String.mk

/-- JavaScript `s.trim()`: strip leading and trailing whitespace. -/
def jsTrim (s : String) : String :=
  String.mk (((s.data.dropWhile isSpaceChar).reverse.dropWhile isSpaceChar).reverse)

/-- One TAC line of `generateFinalCode`'s loop: a line containing `=` is
split on `" = "` and re-emitted as `MOV target, expr`; others are dropped.
(JavaScript destructuring takes the first two pieces of the split; every
`generateTAC` line contains `" = "` exactly once, so piece 1 exists.) -/
def emitLine (line : String) : Option String :=
  if line.data.contains '=' then
    let parts := jsSplit " = " line
    some ("MOV " ++ jsTrim (parts.headD "") ++ ", " ++
      jsTrim ((parts.drop 1).headD ""))
  else
    none

/-- `generateFinalCode(tacLines)`: the kept `MOV` lines joined by newlines. -/
def generateFinalCode (tacLines : List String) : String :=
  String.intercalate "\n" (tacLines.filterMap emitLine)

/-- `padEnd(8)` on a token type. -/
def padEnd (s : String) (n : Nat) : String :=
  s ++ String.mk (List.replicate (n - s.length) ' ')

/-- The success payload of `/compile`: the five phase outputs. -/
structure PhaseResults where
  tokens : String
  syntaxTree : String
  semantic : String
  intermediate : String
  final : String
deriving DecidableEq, Repr

/-- How a `/compile` call fails: the request-validation guard returns its
400 before the pipeline starts; every pipeline exception is caught and
returned as a 400 with the exception's message. -/
inductive CompileError where
  | validation (msg : String)
  | pipeline (msg : String)
deriving DecidableEq, Repr

/-- The `/compile` endpoint body.  For a string-typed `expression` the guard
`!expression || typeof expression !== "string"` rejects exactly the empty
string (the only falsy string), before `tokenize` is ever called.  Then:
tokenize, parse an expression, demand the parser consumed every token,
and assemble the five phase outputs (`final` falls back to the placeholder
when `generateFinalCode` returned an empty string). -/
def compile (expression : String) : Except CompileError PhaseResults :=
  if expression = "" then
    .error (.validation "Missing or invalid expression")
  else
    match tokenize expression with
    | .error e => .error (.pipeline e)
    | .ok tokens =>
      match parseExpression (parseFuel tokens) tokens with
      | .error e => .error (.pipeline e)
      | .ok (ast, rest) =>
        if rest ≠ [] then
          .error (.pipeline "Extra tokens after expression")
        else
          match generateTAC ast with
          | .error e => .error (.pipeline e)
          | .ok tacLines =>
            let treeStr := jsTrim (printTree ast "" true true)
            let finalCode := generateFinalCode tacLines
            .ok {
              tokens := String.intercalate "\n"
                (tokens.map (fun t => padEnd t.type 8 ++ " " ++ t.value))
              syntaxTree := if treeStr = "" then "(empty tree)" else treeStr
              semantic := semanticAnalysis ast
              intermediate := String.intercalate "\n" tacLines
              final := if finalCode = "" then "(single value - no operations)"
                       else finalCode
            }

/-- HTTP status of a `/compile` response: both validation failures and
caught pipeline exceptions answer 400, success answers 200. -/
def httpStatus : Except CompileError PhaseResults → Nat
  | .error _ => 400
  | .ok _ => 200

/-- The front half of the pipeline as the endpoint runs it: tokenize, then
parse one expression, returning the AST together with the unconsumed
tokens. -/
def astOf (s : String) : Except String (AST × List Token) :=
  match tokenize s with
  | .error e => .error e
  | .ok ts => parseExpression (parseFuel ts) ts

/-- A sequence of `/compile` calls, one result per expression. -/
def compileSeq (es : List String) : List (Except CompileError PhaseResults) :=
  es.map compile

/-- Claim C1: for `"2+3*4"` the parser yields `2 + (3 * 4)`, `generateTAC`
on that AST yields exactly `t0 = 3 * 4`, `t1 = 2 + t0`, `result = t1` in
that order (left operand generated before right, temporaries in post-order
from `t0`), and `generateFinalCode` on those lines yields exactly
`MOV t0, 3 * 4`, `MOV t1, 2 + t0`, `MOV result, t1`. -/
theorem tac_and_final_for_two_plus_three_times_four :
  (astOf "2+3*4" = .ok (.BinaryOp "+" (.Number "2")
      (.BinaryOp "*" (.Number "3") (.Number "4")), []))
  ∧ generateTAC (.BinaryOp "+" (.Number "2")
      (.BinaryOp "*" (.Number "3") (.Number "4")))
      = .ok ["t0 = 3 * 4", "t1 = 2 + t0", "result = t1"]
  ∧ generateFinalCode ["t0 = 3 * 4", "t1 = 2 + t0", "result = t1"]
      = "MOV t0, 3 * 4\nMOV t1, 2 + t0\nMOV result, t1" := by
  decide

/-- Claim C2, counterexample: for the bare literal `"5"` the TAC is exactly
`result = 5`, but the `final` field of the compile response is
`MOV result, 5` — the line `result = 5` contains `=`, so
`generateFinalCode` emits a `MOV` line and the no-operations placeholder is
not reached. -/
theorem bare_literal_final_counterexample :
  (compile "5").map (fun p => (p.intermediate, p.final))
    = .ok ("result = 5", "MOV result, 5")
  ∧ ("MOV result, 5" : String) ≠ "(single value - no operations)" := by
  decide

/-- Claim C2, amended: for `"5"` the TAC is exactly `result = 5` and the
final-code phase reports `MOV result, 5`; the placeholder would require
`generateFinalCode` to return an empty string, which the always-appended
`result = ...` line prevents. -/
theorem bare_literal_tac_and_final :
  (compile "5").map (fun p => (p.intermediate, p.final))
    = .ok ("result = 5", "MOV result, 5") := by
  decide

/-- Claim C3, counterexample: `tokenize("2 $ 3")` reports the invalid
character `$` at 1-based position 3 (the `$` is the third character), not
at position 5 as claimed. -/
theorem invalid_char_position_counterexample :
  tokenize "2 $ 3"
    = .error ("Invalid character: " ++ q ++ "$" ++ q ++ " at position 3")
  ∧ tokenize "2 $ 3"
    ≠ .error ("Invalid character: " ++ q ++ "$" ++ q ++ " at position 5") := by
  decide

/-- Claim C3, amended: `tokenize("2 $ 3")` fails with a lexical error that
reports the invalid character `$` and its 1-based position 3. -/
theorem invalid_char_reported_with_position :
  tokenize "2 $ 3"
    = .error ("Invalid character: " ++ q ++ "$" ++ q ++ " at position 3") := by
  decide

/-- Claim C4: parsing respects precedence — the token sequence of `"2+3*4"`
parses to a root `BinaryOp +` whose left child is `Number 2` and whose
right child is `BinaryOp *` of `Number 3` and `Number 4`, with every token
consumed. -/
theorem precedence_two_plus_three_times_four :
  astOf "2+3*4" = .ok (.BinaryOp "+" (.Number "2")
    (.BinaryOp "*" (.Number "3") (.Number "4")), []) := by
  decide

/-- Claim C5: binary operators parse left-associatively — `"8-3-2"` parses
to `BinaryOp -` with left child `BinaryOp - (Number 8) (Number 3)` and
right child `Number 2`; and in general each additional `(op, term)` pair
taken by `parseExpressionLoop` wraps the previously built node as the left
child of the new `BinaryOp` (shown as the loop's step equations for a
leading `+` and a leading `-` token). -/
theorem left_associative_parse :
  (astOf "8-3-2" = .ok (.BinaryOp "-"
      (.BinaryOp "-" (.Number "8") (.Number "3")) (.Number "2"), []))
  ∧ (∀ (fuel : Nat) (node : AST) (ts : List Token) (ty : String),
      parseExpressionLoop (fuel + 1) node (⟨ty, "+"⟩ :: ts) =
        match parseTerm fuel ts with
        | .error e => .error e
        | .ok (right, ts2) =>
          parseExpressionLoop fuel (.BinaryOp "+" node right) ts2)
  ∧ (∀ (fuel : Nat) (node : AST) (ts : List Token) (ty : String),
      parseExpressionLoop (fuel + 1) node (⟨ty, "-"⟩ :: ts) =
        match parseTerm fuel ts with
        | .error e => .error e
        | .ok (right, ts2) =>
          parseExpressionLoop fuel (.BinaryOp "-" node right) ts2) := by
  refine ⟨by decide, ?_, ?_⟩ <;>
    (intro fuel node ts ty; rw [parseExpressionLoop]; simp)

/-- Claim C6: unary minus stacks and binds tighter than the binary
operators — `"--x"` parses to `UnaryOp - (UnaryOp - (Variable x))` because
the unary-minus rule recurses on `parseFactor`, and `"-x*y"` parses to
`(-x) * y` (the unary minus applies at the factor level, below `*`). -/
theorem unary_minus_stacks_and_binds_tightest :
  (astOf "--x" = .ok (.UnaryOp "-" (.UnaryOp "-" (.Variable "x")), []))
  ∧ (astOf "-x*y" = .ok (.BinaryOp "*" (.UnaryOp "-" (.Variable "x"))
      (.Variable "y"), [])) := by
  decide

/-- Claim C7: the unbalanced-parenthesis input `"(2+3"` fails because the
expected `)` is missing (`eat` meets EOF), and `"2 3"` fails because after
the top-level expression the cursor has not consumed the whole token
sequence. -/
theorem unbalanced_paren_and_trailing_tokens_fail :
  compile "(2+3" = .error (.pipeline
      ("Expected OPERATOR " ++ q ++ ")" ++ q ++ " but got EOF"))
  ∧ compile "2 3" = .error (.pipeline "Extra tokens after expression") := by
  decide

/-- Claim C8: semantic analysis of the AST of `"x+2"` reports exactly one
distinct variable `x`, classification symbolic, and flags `x` as needing a
runtime value; analysis of the AST of `"2+3"` reports zero variables and
classification numeric (fully evaluable at compile time). -/
theorem semantic_reports_for_x_plus_two_and_two_plus_three :
  ((astOf "x+2").map (fun p =>
      ((semanticInfo p.1).vars, resultTypeStr (semanticInfo p.1),
        semanticAnalysis p.1))
    = .ok (["x"], "symbolic (contains variables)",
      "── Semantic Analysis Report ──\n\nAST Nodes     : 3\nVariables     : x\nConstants     : 2\nOperators     : +\nResult Type   : symbolic (contains variables)\n\n⚠ Undeclared symbols: x\n  (values needed at runtime)"))
  ∧ ((astOf "2+3").map (fun p =>
      ((semanticInfo p.1).vars, resultTypeStr (semanticInfo p.1),
        semanticAnalysis p.1))
    = .ok ([], "numeric (can evaluate)",
      "── Semantic Analysis Report ──\n\nAST Nodes     : 3\nVariables     : (none)\nConstants     : 2, 3\nOperators     : +\nResult Type   : numeric (can evaluate)\n\n✓ Expression is fully evaluable at compile time")) := by
  decide

/-- Claim C9: no state leaks between compile calls — `compile` is a pure
function of the expression (every accumulator in the source is created
inside the call), so a call preceded by any other call returns exactly what
it returns alone; in particular `compile("a+1")` and `compile("b+2")` each
start their temporaries at `t0`. -/
theorem compile_calls_independent :
  (∀ e1 e2 : String, compileSeq [e1, e2] = [compile e1, compile e2])
  ∧ (compile "a+1").map (fun p => p.intermediate)
      = .ok "t0 = a + 1\nresult = t0"
  ∧ (compile "b+2").map (fun p => p.intermediate)
      = .ok "t0 = b + 2\nresult = t0" := by
  refine ⟨fun e1 e2 => rfl, by decide, by decide⟩

/-- Claim C10: the empty expression is rejected by the request-validation
guard (message `Missing or invalid expression`, HTTP 400) before the
pipeline runs — the falsy check treats `""` like a missing field — so it
never reaches the `Unexpected end of input` syntax error that the
whitespace-only expression `" "` produces. -/
theorem empty_expression_rejected_by_validation :
  compile "" = .error (.validation "Missing or invalid expression")
  ∧ httpStatus (compile "") = 400
  ∧ compile " " = .error (.pipeline "Unexpected end of input")
  ∧ CompileError.validation "Missing or invalid expression"
      ≠ CompileError.pipeline "Unexpected end of input" := by
  decide

end ExprCompiler
